import Mathlib

/-!
Verification of the student-management web service (src/main.py).

The service is embedded shallowly: the database is a pure state (lists of
account and student rows plus the auto-increment counters), each FastAPI
handler becomes a pure function from the state and the request body to a
pair of a result (`Except HTTPError α`, mirroring `raise HTTPException`
versus a normal return) and the state after the request.  The pydantic
request-shape validation of `StudentCreate` is embedded as a parse step
that runs before the handler, exactly as FastAPI runs it.
-/

namespace StudentApp

/-- An `HTTPException(status_code, detail)` raised by a handler. -/
structure HTTPError where
  status : Nat
  detail : String
deriving Repr, DecidableEq

/-- A row of the `users` table: id (primary key), unique username, password. -/
structure User where
  id : Nat
  username : String
  password : String
deriving Repr, DecidableEq

/-- A row of the `students` table: id (primary key) plus the six data fields. -/
structure Student where
  id : Nat
  name : String
  age : Int
  address : String
  email : String
  subject : String
  semester : Int
deriving Repr, DecidableEq

/-- The persistent database state: the two tables in storage order and the
auto-increment counters that assign primary keys. -/
structure DB where
  users : List User
  students : List Student
  nextUserId : Nat
  nextStudentId : Nat
deriving Repr, DecidableEq

/-- Request body of `/register` and `/login` (pydantic `UserCreate`). -/
structure UserCreate where
  username : String
  password : String
deriving Repr, DecidableEq

/-- Response shape of `/register` (pydantic `UserOut`). -/
structure UserOut where
  id : Nat
  username : String
deriving Repr, DecidableEq

/-- Request body of `/students` endpoints after pydantic validation
(`StudentCreate`): the six data fields, with `age` in 18..30 and `semester`
in 1..8 guaranteed by the parse step below. -/
structure StudentCreate where
  name : String
  age : Int
  address : String
  email : String
  subject : String
  semester : Int
deriving Repr, DecidableEq

/-- The raw (not yet validated) field values of a student request body,
as deserialized from JSON before pydantic checks the `Field` bounds. -/
structure StudentCreateRaw where
  name : String
  age : Int
  address : String
  email : String
  subject : String
  semester : Int
deriving Repr, DecidableEq

/-- Modelled from the spec: pydantic `EmailStr` is a library external to
src/; the spec only requires "email well-formed", approximated here as
one `@` separating two nonempty parts. No claim depends on its details. -/
def wellFormedEmail (e : String) : Bool :=
  let before := e.data.takeWhile (fun c => c != '@')
  match e.data.drop before.length with
  | '@' :: after => !before.isEmpty && !after.isEmpty && !(after.contains '@')
  | _ => false

/-- The pydantic request-shape boundary for `StudentCreate`: `age` must lie
in `[18, 30]`, `semester` in `[1, 8]` (the `Field(..., ge, le)` bounds) and
the email must be well-formed; out-of-bounds input is rejected before any
handler logic runs. -/
def parseStudentCreate (r : StudentCreateRaw) : Option StudentCreate :=
  if (18 ≤ r.age ∧ r.age ≤ 30) ∧ (1 ≤ r.semester ∧ r.semester ≤ 8)
      ∧ wellFormedEmail r.email = true then
    some ⟨r.name, r.age, r.address, r.email, r.subject, r.semester⟩
  else
    none

/-- `validate_password` from src/main.py: returns the message of the first
violated rule, or `none` when the password passes all five rules.  The
Python regex `[\W_]` matches exactly the non-alphanumeric characters
(`\W` is non-word, i.e. not alphanumeric and not underscore, re-joined
with underscore). -/
def validate_password (password : String) : Option String :=
  if password.length < 8 then
    some "Password must be at least 8 characters long."
  else if !password.data.any Char.isDigit then
    some "Password must contain at least one digit."
  else if !password.data.any Char.isUpper then
    some "Password must contain at least one uppercase letter."
  else if !password.data.any Char.isLower then
    some "Password must contain at least one lowercase letter."
  else if !password.data.any (fun c => !c.isAlphanum) then
    some "Password must contain at least one special character."
  else
    none

/-- A result of a handler: either a raised `HTTPException` or a value. -/
def HResult (α : Type) := Except HTTPError α × DB

/-- Whether a handler outcome is a raised `HTTPException`. -/
def isError {α : Type} : Except HTTPError α → Bool
  | Except.error _ => true
  | Except.ok _ => false

instance {ε α : Type} [DecidableEq ε] [DecidableEq α] : DecidableEq (Except ε α) :=
  fun x y =>
    match x, y with
    | Except.ok a, Except.ok b =>
      if h : a = b then Decidable.isTrue (by rw [h])
      else Decidable.isFalse (by intro hc; injection hc; exact h (by assumption))
    | Except.ok _, Except.error _ => Decidable.isFalse (by intro hc; cases hc)
    | Except.error _, Except.ok _ => Decidable.isFalse (by intro hc; cases hc)
    | Except.error a, Except.error b =>
      if h : a = b then Decidable.isTrue (by rw [h])
      else Decidable.isFalse (by intro hc; injection hc; exact h (by assumption))

/-- `register_user`: pre-check the username, then validate the password,
then insert the new account verbatim and return its id and username. -/
def register_user (db : DB) (user : UserCreate) : Except HTTPError UserOut × DB :=
  match db.users.find? (fun u => u.username == user.username) with
  | some _ => (Except.error ⟨400, "Username already taken."⟩, db)
  | none =>
    match validate_password user.password with
    | some msg => (Except.error ⟨400, msg⟩, db)
    | none =>
      let newUser : User := ⟨db.nextUserId, user.username, user.password⟩
      (Except.ok ⟨newUser.id, newUser.username⟩,
       { db with users := db.users ++ [newUser], nextUserId := db.nextUserId + 1 })

/-- `login_user`: look the username up; fail 401 with one generic message
when it is absent or the stored password differs; otherwise acknowledge. -/
def login_user (db : DB) (user : UserCreate) : Except HTTPError String × DB :=
  match db.users.find? (fun u => u.username == user.username) with
  | none => (Except.error ⟨401, "Invalid username or password."⟩, db)
  | some dbUser =>
    if dbUser.password == user.password then
      (Except.ok "Login successful.", db)
    else
      (Except.error ⟨401, "Invalid username or password."⟩, db)

/-- Replace the first element satisfying `p` by `f` of it, as mutating the
single row an SQLAlchemy query returned does. -/
def replaceFirst {α : Type} (p : α → Bool) (f : α → α) : List α → List α
  | [] => []
  | x :: xs => if p x then f x :: xs else x :: replaceFirst p f xs

/-- Remove the first element satisfying `p`, as `db.delete(row)` does for
the single row a primary-key query returned. -/
def eraseFirst {α : Type} (p : α → Bool) : List α → List α
  | [] => []
  | x :: xs => if p x then xs else x :: eraseFirst p xs

/-- `add_student`: pre-check the email, then insert a new record with the
system-assigned id and return it. -/
def add_student (db : DB) (student : StudentCreate) : Except HTTPError Student × DB :=
  match db.students.find? (fun s => s.email == student.email) with
  | some _ => (Except.error ⟨400, "Email already in use."⟩, db)
  | none =>
    let newStudent : Student :=
      ⟨db.nextStudentId, student.name, student.age, student.address,
       student.email, student.subject, student.semester⟩
    (Except.ok newStudent,
     { db with students := db.students ++ [newStudent],
               nextStudentId := db.nextStudentId + 1 })

/-- The `POST /students` endpoint as FastAPI runs it: pydantic validates
the request shape first (422 on violation, before the handler), then the
handler `add_student` runs. -/
def post_students (db : DB) (r : StudentCreateRaw) : Except HTTPError Student × DB :=
  match parseStudentCreate r with
  | none => (Except.error ⟨422, "Unprocessable Entity"⟩, db)
  | some student => add_student db student

/-- `get_all_students`: return every record in storage order. -/
def get_all_students (db : DB) : Except HTTPError (List Student) × DB :=
  (Except.ok db.students, db)

/-- `get_student`: return the record with the given id or fail 404. -/
def get_student (db : DB) (student_id : Nat) : Except HTTPError Student × DB :=
  match db.students.find? (fun s => s.id == student_id) with
  | none => (Except.error ⟨404, "Student not found"⟩, db)
  | some s => (Except.ok s, db)

/-- `update_student`: look up by id, fail 404 if absent, otherwise
overwrite every data field of that row with the supplied values (the id is
not among the updated fields) and return the updated record. -/
def update_student (db : DB) (student_id : Nat) (updated : StudentCreate) :
    Except HTTPError Student × DB :=
  match db.students.find? (fun s => s.id == student_id) with
  | none => (Except.error ⟨404, "Student not found"⟩, db)
  | some s =>
    let s' : Student :=
      ⟨s.id, updated.name, updated.age, updated.address,
       updated.email, updated.subject, updated.semester⟩
    (Except.ok s',
     { db with students := replaceFirst (fun t => t.id == student_id) (fun _ => s') db.students })

/-- `delete_student`: look up by id, fail 404 if absent, otherwise remove
the record and acknowledge. -/
def delete_student (db : DB) (student_id : Nat) : Except HTTPError String × DB :=
  match db.students.find? (fun s => s.id == student_id) with
  | none => (Except.error ⟨404, "Student not found"⟩, db)
  | some _ =>
    (Except.ok "Student deleted successfully",
     { db with students := eraseFirst (fun s => s.id == student_id) db.students })

/-- Spec-side statement of the password rules (section 4.1), for the
refinement claim C2: each rule is a satisfaction predicate paired with the
violation message; validation is to report the first violated rule. -/
def passwordRules : List ((String → Bool) × String) :=
  [ (fun p => decide (8 ≤ p.length), "Password must be at least 8 characters long."),
    (fun p => p.data.any Char.isDigit, "Password must contain at least one digit."),
    (fun p => p.data.any Char.isUpper, "Password must contain at least one uppercase letter."),
    (fun p => p.data.any Char.isLower, "Password must contain at least one lowercase letter."),
    (fun p => p.data.any (fun c => !c.isAlphanum),
      "Password must contain at least one special character.") ]

/-- Spec-side validation outcome: the message of the first rule whose
predicate fails, `none` when every rule is satisfied. -/
def firstViolatedRule (p : String) : Option String :=
  (passwordRules.find? (fun rule => !rule.1 p)).map (fun rule => rule.2)

/-- No two students in the list share an email. -/
def emailsUnique (students : List Student) : Prop :=
  (students.map (fun s => s.email)).Nodup

instance (students : List Student) : Decidable (emailsUnique students) := by
  unfold emailsUnique; infer_instance

end StudentApp

/-! Helper lemmas about `replaceFirst` and `eraseFirst`. -/

namespace StudentApp

lemma replaceFirst_length {α : Type} (p : α → Bool) (f : α → α) (l : List α) :
    (replaceFirst p f l).length = l.length := by
  induction l with
  | nil => rfl
  | cons x xs ih =>
    cases hx : p x <;> simp [replaceFirst, hx, ih]

lemma mem_replaceFirst_of_not_pred {α : Type} (p : α → Bool) (f : α → α)
    (l : List α) (x : α) (hx : x ∈ l) (hpx : p x = false) :
    x ∈ replaceFirst p f l := by
  induction l with
  | nil => cases hx
  | cons y ys ih =>
    rcases List.mem_cons.mp hx with h | h
    · subst h; simp [replaceFirst, hpx]
    · cases hy : p y
      · simp only [replaceFirst, hy]
        simp only [Bool.false_eq_true, if_false]
        exact List.mem_cons.mpr (Or.inr (ih h))
      · simp [replaceFirst, hy, h]

lemma mem_of_mem_replaceFirst {α : Type} (p : α → Bool) (f : α → α)
    (l : List α) (x : α) (hx : x ∈ replaceFirst p f l) :
    x ∈ l ∨ ∃ y, y ∈ l ∧ p y = true ∧ x = f y := by
  induction l with
  | nil => cases hx
  | cons y ys ih =>
    cases hy : p y
    · simp only [replaceFirst, hy, Bool.false_eq_true, if_false] at hx
      rcases List.mem_cons.mp hx with h | h
      · exact Or.inl (List.mem_cons.mpr (Or.inl h))
      · rcases ih h with h2 | ⟨z, hz, hpz, hxz⟩
        · exact Or.inl (List.mem_cons.mpr (Or.inr h2))
        · exact Or.inr ⟨z, List.mem_cons.mpr (Or.inr hz), hpz, hxz⟩
    · simp only [replaceFirst, hy, if_true] at hx
      rcases List.mem_cons.mp hx with h | h
      · exact Or.inr ⟨y, List.mem_cons_self y ys, hy, h⟩
      · exact Or.inl (List.mem_cons.mpr (Or.inr h))

lemma find?_replaceFirst {α : Type} (p : α → Bool) (f : α → α) (l : List α)
    (x : α) (h : l.find? p = some x) (hf : p (f x) = true) :
    (replaceFirst p f l).find? p = some (f x) := by
  induction l with
  | nil => cases h
  | cons y ys ih =>
    cases hy : p y
    · rw [List.find?_cons_of_neg _ (by simp [hy])] at h
      simp only [replaceFirst, hy, Bool.false_eq_true, if_false]
      rw [List.find?_cons_of_neg _ (by simp [hy])]
      exact ih h
    · rw [List.find?_cons_of_pos _ hy] at h
      injection h with h
      subst h
      simp only [replaceFirst, hy, if_true]
      simp [List.find?_cons_of_pos _ hf]

lemma find?_eraseFirst_of_nodup (key : Student → Nat) (k : Nat) (l : List Student)
    (h : (l.map key).Nodup) :
    (eraseFirst (fun x => key x == k) l).find? (fun x => key x == k) = none := by
  induction l with
  | nil => rfl
  | cons y ys ih =>
    simp only [List.map_cons, List.nodup_cons, List.mem_map] at h
    cases hy : (key y == k)
    · simp only [eraseFirst, hy, Bool.false_eq_true, if_false]
      rw [List.find?_cons_of_neg _ (by simp [hy])]
      exact ih h.2
    · simp only [eraseFirst, hy, if_true]
      apply List.find?_eq_none.mpr
      intro z hz
      simp only [beq_iff_eq]
      intro hzk
      exact h.1 ⟨z, hz, by rw [hzk]; exact (eq_of_beq hy).symm ▸ rfl⟩

end StudentApp

/-! The claims. -/

namespace StudentApp

/-- C1: For every registration request, the handler first queries accounts for
the supplied username and fails with a conflict error if one exists; otherwise
it runs password validation and fails with a bad-input error carrying the
violation message if any rule is violated; otherwise it persists a new account
storing the password verbatim and returns the created account's id and
username. -/
theorem register_user_spec (db : DB) (user : UserCreate) :
    ((∃ u, db.users.find? (fun v => v.username == user.username) = some u) →
      register_user db user = (Except.error ⟨400, "Username already taken."⟩, db))
    ∧ (∀ msg, db.users.find? (fun v => v.username == user.username) = none →
        validate_password user.password = some msg →
        register_user db user = (Except.error ⟨400, msg⟩, db))
    ∧ (db.users.find? (fun v => v.username == user.username) = none →
        validate_password user.password = none →
        register_user db user =
          (Except.ok ⟨db.nextUserId, user.username⟩,
           { db with
              users := db.users ++ [⟨db.nextUserId, user.username, user.password⟩],
              nextUserId := db.nextUserId + 1 })) := by
  refine ⟨?_, ?_, ?_⟩
  · rintro ⟨u, hu⟩
    simp [register_user, hu]
  · intro msg h1 h2
    simp [register_user, h1, h2]
  · intro h1 h2
    simp [register_user, h1, h2]

/-- Witness for C1: registering alice against the empty database succeeds and
persists the account verbatim with the next user id. -/
theorem register_user_spec_witness :
    register_user ⟨[], [], 1, 1⟩ ⟨"alice", "Abcdef1!"⟩ =
      (Except.ok ⟨1, "alice"⟩, ⟨[⟨1, "alice", "Abcdef1!"⟩], [], 2, 1⟩) := by
  have h := (register_user_spec ⟨[], [], 1, 1⟩ ⟨"alice", "Abcdef1!"⟩).2.2
    (by decide) (by decide)
  simpa using h

/-- C2: For every candidate password string, password validation returns the
description of the first violated rule, checking the rules in the fixed order
length, digit, uppercase, lowercase, symbol, and returns the no-violation
result when no rule is violated. -/
theorem validate_password_eq_firstViolatedRule (p : String) :
    validate_password p = firstViolatedRule p := by
  unfold validate_password firstViolatedRule passwordRules
  simp only [List.find?]
  by_cases h1 : p.length < 8
  · simp [h1, Nat.not_le.mpr h1]
  · simp only [if_neg h1]
    have h1' : decide (8 ≤ p.length) = true := by
      simp [Nat.le_of_not_lt h1]
    simp only [h1', Bool.not_true]
    by_cases h2 : p.data.any Char.isDigit
    · by_cases h3 : p.data.any Char.isUpper
      · by_cases h4 : p.data.any Char.isLower
        · by_cases h5 : p.data.any (fun c => !c.isAlphanum)
          · simp [h2, h3, h4, h5]
          · simp [h2, h3, h4, h5]
        · simp [h2, h3, h4]
      · simp [h2, h3]
    · simp [h2]

/-- C4: For every login request, the handler fails 401 with the one generic
message exactly when the username is absent or the stored password differs
from the supplied one; otherwise it returns only the success message. -/
theorem login_user_spec (db : DB) (user : UserCreate) :
    (login_user db user = (Except.error ⟨401, "Invalid username or password."⟩, db) ↔
      (db.users.find? (fun v => v.username == user.username) = none ∨
       ∃ u, db.users.find? (fun v => v.username == user.username) = some u ∧
         u.password ≠ user.password))
    ∧ (∀ u, db.users.find? (fun v => v.username == user.username) = some u →
        u.password = user.password →
        login_user db user = (Except.ok "Login successful.", db)) := by
  constructor
  · constructor
    · intro h
      rcases hf : db.users.find? (fun v => v.username == user.username) with _ | u
      · exact Or.inl hf
      · refine Or.inr ⟨u, hf, ?_⟩
        intro hpw
        simp [login_user, hf, hpw] at h
    · intro h
      rcases h with h | ⟨u, hu, hpw⟩
      · simp [login_user, h]
      · simp [login_user, hu]
        intro h2
        exact absurd h2 hpw
  · intro u hu hpw
    simp [login_user, hu, hpw]

/-- Witness for C4: logging in with the stored password succeeds. -/
theorem login_user_spec_witness :
    login_user ⟨[⟨1, "alice", "Abcdef1!"⟩], [], 2, 1⟩ ⟨"alice", "Abcdef1!"⟩ =
      (Except.ok "Login successful.", ⟨[⟨1, "alice", "Abcdef1!"⟩], [], 2, 1⟩) := by
  have h := (login_user_spec ⟨[⟨1, "alice", "Abcdef1!"⟩], [], 2, 1⟩
    ⟨"alice", "Abcdef1!"⟩).2 ⟨1, "alice", "Abcdef1!"⟩ (by decide) rfl
  exact h

end StudentApp

namespace StudentApp

/-- Counterexample for C5: with the username already registered, a too-short
password does not produce the length-violation message; the conflict check
runs first and registration fails with the conflict message instead. -/
theorem register_short_password_counterexample :
    ("abc".length < 8)
    ∧ register_user ⟨[⟨1, "alice", "Abcdef1!"⟩], [], 2, 1⟩ ⟨"alice", "abc"⟩
        = (Except.error ⟨400, "Username already taken."⟩,
           ⟨[⟨1, "alice", "Abcdef1!"⟩], [], 2, 1⟩)
    ∧ ("Username already taken." ≠ "Password must be at least 8 characters long.") :=
  ⟨by decide, by decide, by decide⟩

/-- C5 as amended: for all passwords shorter than 8 characters, registration
with a username that is not already taken fails with the length-violation
message, regardless of compliance with the other password rules. -/
theorem register_short_password_fails_length (db : DB) (user : UserCreate)
    (hfree : db.users.find? (fun v => v.username == user.username) = none)
    (hshort : user.password.length < 8) :
    register_user db user =
      (Except.error ⟨400, "Password must be at least 8 characters long."⟩, db) := by
  simp [register_user, hfree, validate_password, hshort]

/-- Witness for C5 as amended: the password satisfies every rule except the
length bound, yet the length message is returned. -/
theorem register_short_password_fails_length_witness :
    register_user ⟨[], [], 1, 1⟩ ⟨"bob", "Ab1!"⟩ =
      (Except.error ⟨400, "Password must be at least 8 characters long."⟩,
       ⟨[], [], 1, 1⟩) :=
  register_short_password_fails_length ⟨[], [], 1, 1⟩ ⟨"bob", "Ab1!"⟩
    (by decide) (by decide)

/-- C6: for all student-creation inputs whose age lies outside 18..30 or whose
semester lies outside 1..8, the request is rejected at the request-shape
boundary before the handler runs, so the stored state is unchanged. -/
theorem out_of_bounds_student_create_rejected (db : DB) (r : StudentCreateRaw)
    (h : r.age < 18 ∨ 30 < r.age ∨ r.semester < 1 ∨ 8 < r.semester) :
    post_students db r = (Except.error ⟨422, "Unprocessable Entity"⟩, db) := by
  have hp : parseStudentCreate r = none := by
    unfold parseStudentCreate
    rw [if_neg]
    rintro ⟨⟨h1, h2⟩, ⟨h3, h4⟩, _⟩
    rcases h with h | h | h | h <;> omega
  simp [post_students, hp]

/-- Witness for C6: creating a student aged 17 is rejected with the state
unchanged. -/
theorem out_of_bounds_student_create_rejected_witness :
    post_students ⟨[], [], 1, 1⟩ ⟨"carl", 17, "street", "c@x.com", "math", 1⟩ =
      (Except.error ⟨422, "Unprocessable Entity"⟩, ⟨[], [], 1, 1⟩) :=
  out_of_bounds_student_create_rejected ⟨[], [], 1, 1⟩
    ⟨"carl", 17, "street", "c@x.com", "math", 1⟩ (Or.inl (by decide))

/-- C7: for every update-by-id request, if no student record has the given id
the operation fails not-found leaving the state unchanged; otherwise it
overwrites every field of that record with the supplied values (full replace,
id kept), returns the updated record, and the updated record is what a
subsequent read of that id retrieves. -/
theorem update_student_spec (db : DB) (sid : Nat) (upd : StudentCreate) :
    (db.students.find? (fun t => t.id == sid) = none →
      update_student db sid upd = (Except.error ⟨404, "Student not found"⟩, db))
    ∧ (∀ s, db.students.find? (fun t => t.id == sid) = some s →
        (update_student db sid upd).1 =
          Except.ok ⟨s.id, upd.name, upd.age, upd.address, upd.email,
            upd.subject, upd.semester⟩
        ∧ get_student (update_student db sid upd).2 sid =
            (Except.ok ⟨s.id, upd.name, upd.age, upd.address, upd.email,
              upd.subject, upd.semester⟩, (update_student db sid upd).2)) := by
  constructor
  · intro h
    simp [update_student, h]
  · intro s hs
    have hsid : (s.id == sid) = true := by
      simpa using List.find?_some hs
    have hfind := find?_replaceFirst (fun t => t.id == sid)
      (fun _ => (⟨s.id, upd.name, upd.age, upd.address, upd.email,
        upd.subject, upd.semester⟩ : Student))
      db.students s hs (by simpa using hsid)
    constructor
    · simp [update_student, hs]
    · simp [update_student, hs, get_student, hfind]

/-- Witness for C7: updating the single stored student replaces every field
and the read after the update returns the replaced record. -/
theorem update_student_spec_witness :
    (update_student ⟨[], [⟨1, "ann", 20, "xs", "a@x.com", "math", 1⟩], 1, 2⟩ 1
      ⟨"ben", 22, "ys", "b@x.com", "phys", 3⟩).1 =
      Except.ok ⟨1, "ben", 22, "ys", "b@x.com", "phys", 3⟩ := by
  have h := (update_student_spec ⟨[], [⟨1, "ann", 20, "xs", "a@x.com", "math", 1⟩], 1, 2⟩ 1
    ⟨"ben", 22, "ys", "b@x.com", "phys", 3⟩).2
    ⟨1, "ann", 20, "xs", "a@x.com", "math", 1⟩ (by decide)
  exact h.1

end StudentApp

namespace StudentApp

/-- C8: with the stored ids pairwise distinct (as the primary key guarantees),
after a successful delete of an id every subsequent read of that id fails
not-found and a second delete of that id also fails not-found, both leaving
the post-delete state unchanged. -/
theorem delete_then_read_spec (db : DB) (sid : Nat)
    (hnodup : (db.students.map (fun s => s.id)).Nodup)
    (hok : isError (delete_student db sid).1 = false) :
    get_student (delete_student db sid).2 sid =
      (Except.error ⟨404, "Student not found"⟩, (delete_student db sid).2)
    ∧ delete_student (delete_student db sid).2 sid =
      (Except.error ⟨404, "Student not found"⟩, (delete_student db sid).2) := by
  rcases hf : db.students.find? (fun s => s.id == sid) with _ | s
  · simp [delete_student, hf, isError] at hok
  · have hnone := find?_eraseFirst_of_nodup (fun s => s.id) sid db.students hnodup
    constructor
    · simp [delete_student, hf, get_student, hnone]
    · simp only [delete_student, hf]
      simp [delete_student, hnone]

/-- Witness for C8: deleting the single stored student, the following read
and the repeated delete both fail not-found. -/
theorem delete_then_read_spec_witness :
    get_student (delete_student ⟨[], [⟨1, "ann", 20, "xs", "a@x.com", "math", 1⟩], 1, 2⟩ 1).2 1 =
      (Except.error ⟨404, "Student not found"⟩,
       (delete_student ⟨[], [⟨1, "ann", 20, "xs", "a@x.com", "math", 1⟩], 1, 2⟩ 1).2)
    ∧ delete_student (delete_student ⟨[], [⟨1, "ann", 20, "xs", "a@x.com", "math", 1⟩], 1, 2⟩ 1).2 1 =
      (Except.error ⟨404, "Student not found"⟩,
       (delete_student ⟨[], [⟨1, "ann", 20, "xs", "a@x.com", "math", 1⟩], 1, 2⟩ 1).2) :=
  delete_then_read_spec ⟨[], [⟨1, "ann", 20, "xs", "a@x.com", "math", 1⟩], 1, 2⟩ 1
    (by decide) (by decide)

/-- C9: a successful update keeps the record id (the update body carries no id
field), touches no other table, preserves the number of records, and leaves
every student record with a different id unchanged in both directions. -/
theorem update_student_frame (db : DB) (sid : Nat) (upd : StudentCreate) (s : Student)
    (hs : db.students.find? (fun t => t.id == sid) = some s) :
    (update_student db sid upd).1 =
      Except.ok ⟨s.id, upd.name, upd.age, upd.address, upd.email,
        upd.subject, upd.semester⟩
    ∧ (update_student db sid upd).2.users = db.users
    ∧ (update_student db sid upd).2.students.length = db.students.length
    ∧ (∀ t, t ∈ db.students → t.id ≠ sid →
        t ∈ (update_student db sid upd).2.students)
    ∧ (∀ t, t ∈ (update_student db sid upd).2.students → t.id ≠ sid →
        t ∈ db.students) := by
  have hsid : s.id = sid := by
    simpa using List.find?_some hs
  refine ⟨by simp [update_student, hs], by simp [update_student, hs], ?_, ?_, ?_⟩
  · simp only [update_student, hs]
    exact replaceFirst_length _ _ _
  · intro t ht hne
    simp only [update_student, hs]
    exact mem_replaceFirst_of_not_pred _ _ _ t ht (by simpa using hne)
  · intro t ht hne
    simp only [update_student, hs] at ht
    rcases mem_of_mem_replaceFirst _ _ _ t ht with h | ⟨y, _, _, hty⟩
    · exact h
    · exfalso
      apply hne
      rw [hty, hsid]

/-- Witness for C9: updating one of two stored students leaves the other
record in place. -/
theorem update_student_frame_witness :
    (update_student ⟨[], [⟨1, "ann", 20, "xs", "a@x.com", "math", 1⟩,
        ⟨2, "ben", 22, "ys", "b@x.com", "phys", 3⟩], 1, 3⟩ 1
      ⟨"cal", 24, "zs", "c@x.com", "chem", 5⟩).1 =
      Except.ok ⟨1, "cal", 24, "zs", "c@x.com", "chem", 5⟩ :=
  (update_student_frame ⟨[], [⟨1, "ann", 20, "xs", "a@x.com", "math", 1⟩,
      ⟨2, "ben", 22, "ys", "b@x.com", "phys", 3⟩], 1, 3⟩ 1
    ⟨"cal", 24, "zs", "c@x.com", "chem", 5⟩
    ⟨1, "ann", 20, "xs", "a@x.com", "math", 1⟩ (by decide)).1

/-- C10: every handler is atomic on error: whenever registration, student
creation, update or delete raises an `HTTPException`, the persistent state
returned is exactly the state before the request. -/
theorem handlers_atomic_on_error (db : DB) (u : UserCreate) (sc : StudentCreate)
    (sid : Nat) :
    (isError (register_user db u).1 = true → (register_user db u).2 = db)
    ∧ (isError (add_student db sc).1 = true → (add_student db sc).2 = db)
    ∧ (isError (update_student db sid sc).1 = true → (update_student db sid sc).2 = db)
    ∧ (isError (delete_student db sid).1 = true → (delete_student db sid).2 = db) := by
  refine ⟨?_, ?_, ?_, ?_⟩
  · rcases hf : db.users.find? (fun v => v.username == u.username) with _ | w
    · rcases hv : validate_password u.password with _ | msg
      · intro h
        simp [register_user, hf, hv, isError] at h
      · intro h
        simp [register_user, hf, hv]
    · intro h
      simp [register_user, hf]
  · rcases hf : db.students.find? (fun t => t.email == sc.email) with _ | w
    · intro h
      simp [add_student, hf, isError] at h
    · intro h
      simp [add_student, hf]
  · rcases hf : db.students.find? (fun t => t.id == sid) with _ | w
    · intro h
      simp [update_student, hf]
    · intro h
      simp [update_student, hf, isError] at h
  · rcases hf : db.students.find? (fun t => t.id == sid) with _ | w
    · intro h
      simp [delete_student, hf]
    · intro h
      simp [delete_student, hf, isError] at h

/-- Witness for C10: a registration that fails on the username conflict leaves
the state exactly as it was. -/
theorem handlers_atomic_on_error_witness :
    (register_user ⟨[⟨1, "alice", "pw"⟩], [], 2, 1⟩ ⟨"alice", "Abcdef1!"⟩).2 =
      ⟨[⟨1, "alice", "pw"⟩], [], 2, 1⟩ :=
  (handlers_atomic_on_error ⟨[⟨1, "alice", "pw"⟩], [], 2, 1⟩ ⟨"alice", "Abcdef1!"⟩
    ⟨"n", 20, "a", "e@x.com", "s", 1⟩ 7).1 (by decide)

end StudentApp

namespace StudentApp

/-- Counterexample for C3: starting from the empty database, two successful
creations followed by a successful update (which runs no email pre-check)
reach a state in which two student records share an email. -/
theorem email_uniqueness_counterexample :
    isError (update_student (add_student (add_student ⟨[], [], 1, 1⟩
        ⟨"ann", 20, "xs", "a@x.com", "math", 1⟩).2
        ⟨"ben", 21, "ys", "b@x.com", "math", 2⟩).2 2
        ⟨"ben", 21, "ys", "a@x.com", "math", 2⟩).1 = false
    ∧ ¬ emailsUnique (update_student (add_student (add_student ⟨[], [], 1, 1⟩
        ⟨"ann", 20, "xs", "a@x.com", "math", 1⟩).2
        ⟨"ben", 21, "ys", "b@x.com", "math", 2⟩).2 2
        ⟨"ben", 21, "ys", "a@x.com", "math", 2⟩).2.students :=
  ⟨by decide, by decide⟩

/-- C3 as amended: the email pre-check guards creation only: `add_student`
fails with a conflict when a stored record already has the supplied email,
and a creation therefore preserves email uniqueness; `update_student` runs
no such pre-check, so updates are not covered by the invariant. -/
theorem email_precheck_on_create (db : DB) (s : StudentCreate) :
    ((∃ t, db.students.find? (fun r => r.email == s.email) = some t) →
      add_student db s = (Except.error ⟨400, "Email already in use."⟩, db))
    ∧ (emailsUnique db.students → emailsUnique (add_student db s).2.students) := by
  constructor
  · rintro ⟨t, ht⟩
    simp [add_student, ht]
  · intro hu
    rcases hf : db.students.find? (fun r => r.email == s.email) with _ | t
    · simp only [add_student, hf]
      unfold emailsUnique at *
      rw [List.map_append, List.nodup_append]
      refine ⟨hu, List.nodup_singleton _, ?_⟩
      intro e he1 he2
      simp only [List.map_cons, List.map_nil, List.mem_singleton] at he2
      subst he2
      rcases List.mem_map.mp he1 with ⟨t, ht, hte⟩
      have hne := List.find?_eq_none.mp hf t ht
      rw [hte] at hne
      simp at hne
    · simp [add_student, hf]
      exact hu

/-- Witness for C3 as amended: creating a student with an email already
stored fails with the conflict error and leaves the state unchanged. -/
theorem email_precheck_on_create_witness :
    add_student ⟨[], [⟨1, "ann", 20, "xs", "a@x.com", "math", 1⟩], 1, 2⟩
      ⟨"cal", 22, "zs", "a@x.com", "math", 3⟩ =
      (Except.error ⟨400, "Email already in use."⟩,
       ⟨[], [⟨1, "ann", 20, "xs", "a@x.com", "math", 1⟩], 1, 2⟩) :=
  (email_precheck_on_create ⟨[], [⟨1, "ann", 20, "xs", "a@x.com", "math", 1⟩], 1, 2⟩
    ⟨"cal", 22, "zs", "a@x.com", "math", 3⟩).1
    ⟨⟨1, "ann", 20, "xs", "a@x.com", "math", 1⟩, by decide⟩

end StudentApp
